import Mathlib

/-!
Verification development for the mushu rendering toolkit
(flow runtime scheduler `src/core/flow.js`, scene graph `core/scene`,
double-buffer simulation engine).

Numbers are modelled as rationals (`ℚ`): every arithmetic operation the
modelled code performs on its numeric state is `+`, `-`, `*`, `/`, `min`
and `Math.floor`, all exact on the inputs considered here.
-/

/- ═══════════════════════════════════════════════════════════════════════
   Matrices — `Float32Array(16)` flat column-major matrices of the scene
   graph.  Field `eN` is flat index `N` of the source array.
   ═══════════════════════════════════════════════════════════════════════ -/

structure Mat4 where
  e0 : ℚ
  e1 : ℚ
  e2 : ℚ
  e3 : ℚ
  e4 : ℚ
  e5 : ℚ
  e6 : ℚ
  e7 : ℚ
  e8 : ℚ
  e9 : ℚ
  e10 : ℚ
  e11 : ℚ
  e12 : ℚ
  e13 : ℚ
  e14 : ℚ
  e15 : ℚ
deriving DecidableEq, Repr

/-- The matrix product computed inline by `SceneObject._updateWorldMatrix`
(part_005 lines 518–538): `b` is the parent world matrix, `a` the local
matrix; entry `e(c*4+r)` of the result is the 4-term dot product written in
the source. -/
def matMulCM (b a : Mat4) : Mat4 :=
  ⟨ b.e0 * a.e0 + b.e4 * a.e1 + b.e8 * a.e2 + b.e12 * a.e3,
    b.e1 * a.e0 + b.e5 * a.e1 + b.e9 * a.e2 + b.e13 * a.e3,
    b.e2 * a.e0 + b.e6 * a.e1 + b.e10 * a.e2 + b.e14 * a.e3,
    b.e3 * a.e0 + b.e7 * a.e1 + b.e11 * a.e2 + b.e15 * a.e3,
    b.e0 * a.e4 + b.e4 * a.e5 + b.e8 * a.e6 + b.e12 * a.e7,
    b.e1 * a.e4 + b.e5 * a.e5 + b.e9 * a.e6 + b.e13 * a.e7,
    b.e2 * a.e4 + b.e6 * a.e5 + b.e10 * a.e6 + b.e14 * a.e7,
    b.e3 * a.e4 + b.e7 * a.e5 + b.e11 * a.e6 + b.e15 * a.e7,
    b.e0 * a.e8 + b.e4 * a.e9 + b.e8 * a.e10 + b.e12 * a.e11,
    b.e1 * a.e8 + b.e5 * a.e9 + b.e9 * a.e10 + b.e13 * a.e11,
    b.e2 * a.e8 + b.e6 * a.e9 + b.e10 * a.e10 + b.e14 * a.e11,
    b.e3 * a.e8 + b.e7 * a.e9 + b.e11 * a.e10 + b.e15 * a.e11,
    b.e0 * a.e12 + b.e4 * a.e13 + b.e8 * a.e14 + b.e12 * a.e15,
    b.e1 * a.e12 + b.e5 * a.e13 + b.e9 * a.e14 + b.e13 * a.e15,
    b.e2 * a.e12 + b.e6 * a.e13 + b.e10 * a.e14 + b.e14 * a.e15,
    b.e3 * a.e12 + b.e7 * a.e13 + b.e11 * a.e14 + b.e15 * a.e15 ⟩

/-- `SceneObject._updateWorldMatrix` (part_005 lines 513–542): with a parent
matrix the world matrix is `parent × local`; with a `null` parent it is a
copy of the local matrix. -/
def updateWorldMatrix (parentMatrix : Option Mat4) (localMatrix : Mat4) : Mat4 :=
  match parentMatrix with
  | some b => matMulCM b localMatrix
  | none => localMatrix

/-- `SceneObject._updateLocalMatrix` (part_005 lines 484–507).  Arguments
mirror the local bindings of the source: `x y z` the position, `cx sx_ cy
sy_ cz sz_` the cosines/sines of the Euler angles (the source computes them
with `Math.cos`/`Math.sin`; callers here pass their exact values), `sx sy
sz` the scale.  NOTE (faithful to the source): lines 495–497 use the plain
names `sy` — the *scale* component destructured on line 487 — inside the
rotation entries `r02, r10, r11, r20, r21`, not the sine `sy_` from line
491.  The transcription below keeps that exact behaviour. -/
def updateLocalMatrix (x y z cx sx_ cy sy_ cz sz_ sx sy sz : ℚ) : Mat4 :=
  let r00 := cy * cz
  let r01 := cy * sz_
  let r02 := -sy
  let r10 := sx_ * sy * cz - cx * sz_
  let r11 := sx_ * sy * sz_ + cx * cz
  let r12 := sx_ * cy
  let r20 := cx * sy * cz + sx_ * sz_
  let r21 := cx * sy * sz_ - sx_ * cz
  let r22 := cx * cy
  ⟨ r00 * sx, r01 * sx, r02 * sx, 0,
    r10 * sy, r11 * sy, r12 * sy, 0,
    r20 * sz, r21 * sz, r22 * sz, 0,
    x, y, z, 1 ⟩

/-- Translation component of a column-major matrix: flat entries 12, 13, 14. -/
def translationOf (m : Mat4) : ℚ × ℚ × ℚ := (m.e12, m.e13, m.e14)

/- ═══════════════════════════════════════════════════════════════════════
   Scene graph, tree view — `SceneObject.render` and `SceneObject.destroy`
   walk the `children` references of a well-formed (acyclic) scene forest,
   so they are modelled on a tree datatype.  A forest type is used for the
   child list to keep mutual recursion structural.
   ═══════════════════════════════════════════════════════════════════════ -/

mutual

inductive SNode : Type where
  | mk (id : ℕ) (localMatrix : Mat4) (visible : Bool) (children : SForest)

inductive SForest : Type where
  | nil : SForest
  | cons (n : SNode) (f : SForest) : SForest

end

mutual

/-- The rendered counterpart of a node: its world matrix as assigned by the
render pass, plus its rendered (visible) children. -/
inductive RTree : Type where
  | mk (id : ℕ) (localMatrix worldMatrix : Mat4) (children : RForest)

inductive RForest : Type where
  | nil : RForest
  | cons (t : RTree) (f : RForest) : RForest

end

mutual

/-- `SceneObject.render` (part_005 lines 416–479), restricted to its
transform effect: an invisible node returns immediately (`none`: neither it
nor its subtree is rendered); otherwise the world matrix is computed by
`_updateWorldMatrix(parentMatrix)` and the children are rendered with this
node's world matrix as their parent matrix.  `Scene.render` (lines
917–939) invokes this with a `null` parent matrix on each root. -/
def renderTree (parentMatrix : Option Mat4) : SNode → Option RTree
  | .mk id l visible f =>
      if visible then
        let w := updateWorldMatrix parentMatrix l
        some (.mk id l w (renderForest w f))
      else
        none

def renderForest (w : Mat4) : SForest → RForest
  | .nil => .nil
  | .cons n f =>
      match renderTree (some w) n with
      | some t => .cons t (renderForest w f)
      | none => renderForest w f

end

mutual

/-- The spec relation of claim C1: each rendered node's world matrix equals
its parent's world matrix times its local matrix, and a root's (parent
matrix `none`) world matrix equals its local matrix (`updateWorldMatrix`
is exactly that case split). -/
def worldsOk (parentMatrix : Option Mat4) : RTree → Bool
  | .mk _ l w f => decide (w = updateWorldMatrix parentMatrix l) && worldsOkF w f

def worldsOkF (w : Mat4) : RForest → Bool
  | .nil => true
  | .cons t f => worldsOk (some w) t && worldsOkF w f

end

mutual

/-- `SceneObject.destroy` (part_005 lines 599–607): tears down this node's
GPU resources, then recursively destroys every child.  The trace lists the
node ids in the order their teardown runs (one entry per `destroy` call). -/
def destroyTrace : SNode → List ℕ
  | .mk id _ _ f => id :: destroyTraceF f

def destroyTraceF : SForest → List ℕ
  | .nil => []
  | .cons n f => destroyTrace n ++ destroyTraceF f

end

mutual

/-- Number of nodes of a subtree. -/
def nodeCount : SNode → ℕ
  | .mk _ _ _ f => 1 + nodeCountF f

def nodeCountF : SForest → ℕ
  | .nil => 0
  | .cons n f => nodeCount n + nodeCountF f

end

/-- World matrix of the first rendered child, if any. -/
def firstChildWorld : RTree → Option Mat4
  | .mk _ _ _ (.cons (.mk _ _ w _) _) => some w
  | _ => none

/- Scenario of claim C1: root `R` at local position `[1,0,0]`, identity
rotation (cos = 1, sin = 0) and unit scale; child `C` of `R` at local
position `[0,2,0]`. -/

def scenarioC : SNode :=
  .mk 1 (updateLocalMatrix 0 2 0 1 0 1 0 1 0 1 1 1) true .nil

def scenarioR : SNode :=
  .mk 0 (updateLocalMatrix 1 0 0 1 0 1 0 1 0 1 1 1) true (.cons scenarioC .nil)

/- Scenario of claim C9: a parent with two leaf children. -/

def scenarioTeardown : SNode :=
  .mk 0 (updateLocalMatrix 0 0 0 1 0 1 0 1 0 1 1 1) true
    (.cons (.mk 1 (updateLocalMatrix 0 0 0 1 0 1 0 1 0 1 1 1) true .nil)
      (.cons (.mk 2 (updateLocalMatrix 0 0 0 1 0 1 0 1 0 1 1 1) true .nil) .nil))

/- ─── helper lemmas (tree view) ─── -/

mutual

theorem renderTree_worldsOk (p : Option Mat4) (n : SNode) (t : RTree)
    (h : renderTree p n = some t) : worldsOk p t = true :=
  match n with
  | .mk id l visible f => by
      unfold renderTree at h
      by_cases hv : visible = true
      · rw [if_pos hv] at h
        cases h
        unfold worldsOk
        simp [renderForest_worldsOk]
      · rw [if_neg hv] at h
        exact absurd h (by simp)

theorem renderForest_worldsOk (w : Mat4) (f : SForest) :
    worldsOkF w (renderForest w f) = true :=
  match f with
  | .nil => rfl
  | .cons n f' => by
      unfold renderForest
      cases hr : renderTree (some w) n with
      | none => exact renderForest_worldsOk w f'
      | some t =>
          unfold worldsOkF
          simp [renderTree_worldsOk _ _ _ hr, renderForest_worldsOk w f']

end

mutual

theorem destroyTrace_length (n : SNode) : (destroyTrace n).length = nodeCount n :=
  match n with
  | .mk id l v f => by
      unfold destroyTrace nodeCount
      simp [destroyTraceF_length f, Nat.add_comm]

theorem destroyTraceF_length (f : SForest) : (destroyTraceF f).length = nodeCountF f :=
  match f with
  | .nil => rfl
  | .cons n f' => by
      unfold destroyTraceF nodeCountF
      simp [destroyTrace_length n, destroyTraceF_length f']

end

/- ═══════════════════════════════════════════════════════════════════════
   Scene graph, heap view — `SceneObject.addChild` / `removeChild` and the
   `Scene` registry mutate a graph of object references, so they are
   modelled on an explicit heap: object references are natural numbers and
   the heap maps each reference to the node record it currently holds.
   Only the fields these operations touch are carried (`id`, `parent`,
   `children`); materials, geometry and transforms are irrelevant here.
   ═══════════════════════════════════════════════════════════════════════ -/

structure NodeRec where
  id : String
  parent : Option ℕ
  children : List ℕ
deriving DecidableEq, Inhabited, Repr

def Heap : Type := ℕ → NodeRec

/-- Overwrite the record held at reference `r` (a JS field assignment on the
object `r` points to). -/
def hset (h : Heap) (r : ℕ) (n : NodeRec) : Heap :=
  fun x => if x = r then n else h x

/-- `SceneObject.removeChild` (part_005 lines 278–285): `indexOf` finds the
first occurrence of the child reference in `this.children` (reference
equality); if present, `splice` removes that first occurrence and the
child's `parent` is set to `null`; otherwise nothing changes.  Removing the
first occurrence is `List.erase`. -/
def removeChild (h : Heap) (self child : ℕ) : Heap :=
  if child ∈ (h self).children then
    let h1 := hset h self { h self with children := (h self).children.erase child }
    hset h1 child { h1 child with parent := none }
  else
    h

/-- `SceneObject.addChild` (part_005 lines 264–271): if the child currently
has a parent, that parent removes it first; then the child's `parent` is
set to `this` and the child is pushed onto `this.children`.  There is no
hierarchy check of any kind. -/
def addChild (h : Heap) (self child : ℕ) : Heap :=
  let h1 :=
    match (h child).parent with
    | some p => removeChild h p child
    | none => h
  let h2 := hset h1 child { h1 child with parent := some self }
  hset h2 self { h2 self with children := (h2 self).children ++ [child] }

/-- Chain of ancestors of `r` obtained by following `parent` references, up
to `fuel` steps. -/
def parentChain (h : Heap) : ℕ → ℕ → List ℕ
  | 0, _ => []
  | fuel + 1, r =>
      match (h r).parent with
      | none => []
      | some p => p :: parentChain h fuel p

/-- `r` is an ancestor of itself within `fuel` parent steps. -/
def selfAncestor (h : Heap) (fuel r : ℕ) : Bool :=
  decide (r ∈ parentChain h fuel r)

/- ─── the Scene container (part_005 lines 617–1007) ─── -/

/-- The JS `Map` registry, keyed by id with unique keys: `set` replaces the
value of an existing key in place, else appends; `delete` drops the key;
`get` finds the entry. -/
def regLookup (m : List (String × ℕ)) (k : String) : Option ℕ :=
  (m.find? (fun p => p.1 = k)).map (·.2)

def regSet (m : List (String × ℕ)) (k : String) (v : ℕ) : List (String × ℕ) :=
  match m.findIdx? (fun p => p.1 = k) with
  | some i => m.set i (k, v)
  | none => m ++ [(k, v)]

def regDelete (m : List (String × ℕ)) (k : String) : List (String × ℕ) :=
  m.filter (fun p => p.1 ≠ k)

/-- State of a `Scene` instance: the object heap plus the fields the
constructor (lines 624–654) assigns — the registry `_objects`, the
`rootObjects` list, the animation state and the listener registration done
by `_initCanvas`/`_setupEventListeners`.  GPU/canvas handles are external.
Deliberately, the structure has no `materials` field: the constructor
assigns `materials` only inside `ctx.state`, never on the instance. -/
structure Scene where
  heap : Heap
  nextRef : ℕ
  registry : List (String × ℕ)
  roots : List ℕ
  running : Bool
  animationLoop : Option ℕ
  listeners : Bool

def emptyScene : Scene :=
  { heap := fun _ => default, nextRef := 0, registry := [], roots := [],
    running := false, animationLoop := none, listeners := true }

/-- `Scene.add` (part_005 lines 771–809), restricted to the graph fields: a
string parent is resolved through the registry (`null` if absent); a fresh
`SceneObject` is allocated with that parent reference; the registry maps
the id to it; then either the parent adopts it via `addChild` or it is
pushed onto `rootObjects`.  (The freshly created child is in no child list
yet, so the `addChild` of a just-created node removes nothing.) -/
def Scene.add (s : Scene) (id : String) (parent : Option String) : Scene :=
  let parentRef : Option ℕ := parent.bind (regLookup s.registry)
  let r := s.nextRef
  let h := hset s.heap r { id := id, parent := parentRef, children := [] }
  let reg := regSet s.registry id r
  match parentRef with
  | some p =>
      { s with heap := addChild h p r, nextRef := r + 1, registry := reg }
  | none =>
      { s with heap := h, nextRef := r + 1, registry := reg,
               roots := s.roots ++ [r] }

/-- `Scene.remove` (part_005 lines 825–844) for a string argument: looks the
object up in the registry (no-op when absent); detaches it from its
parent's children, or — for a root — `indexOf`/`splice`s the first
occurrence out of `rootObjects`; deletes **only the object's own id** from
the registry; finally calls `obj.destroy(ctx)`, which tears down GPU
resources and is invisible on this state. -/
def Scene.remove (s : Scene) (id : String) : Scene :=
  match regLookup s.registry id with
  | none => s
  | some r =>
      let obj := s.heap r
      let h : Heap :=
        match obj.parent with
        | some p => removeChild s.heap p r
        | none => s.heap
      let roots :=
        match obj.parent with
        | some _ => s.roots
        | none => s.roots.erase r
      { s with heap := h, roots := roots,
               registry := regDelete s.registry obj.id }

/-- `Scene.stop` (part_005 lines 976–983). -/
def Scene.stop (s : Scene) : Scene :=
  { s with running := false, animationLoop := none }

/-- `Scene.clear` (part_005 lines 850–857): destroys every registered
object's GPU resources (external), then empties the registry and the root
list. -/
def Scene.clear (s : Scene) : Scene :=
  { s with registry := [], roots := [] }

inductive JsError : Type where
  | typeError : JsError
deriving DecidableEq, Repr

/-- The property access `this.materials` in `Scene.destroy` (line 997): the
constructor never assigns a `materials` property on the instance and no
getter of that name exists, so the access yields `undefined`. -/
def Scene.materialsProp : Option (List Unit) := none

/-- `for (const mat of xs)` over a possibly-undefined value: `for…of` on
`undefined` throws a `TypeError` before any iteration. -/
def jsForOf (xs : Option (List Unit)) : Except JsError Unit :=
  match xs with
  | none => .error .typeError
  | some _ => .ok ()

/-- `Scene.destroy` (part_005 lines 988–1000): `stop()`, `clear()`, call the
listener-cleanup closure, then iterate `this.materials` — which is
`undefined`.  The result pairs the state at the moment of the throw (JS
field mutations survive the exception) with the outcome. -/
def Scene.destroy (s : Scene) : Scene × Except JsError Unit :=
  let s1 := Scene.stop s
  let s2 := Scene.clear s1
  let s3 := { s2 with listeners := false }
  (s3, jsForOf Scene.materialsProp)

/- ─── concrete heaps and scenes for the scene-graph claims ─── -/

/-- Two freshly constructed parentless objects `a` (ref 0) and `b` (ref 1). -/
def twoNodeHeap : Heap :=
  fun r =>
    if r = 0 then { id := "a", parent := none, children := [] }
    else if r = 1 then { id := "b", parent := none, children := [] }
    else default

/-- `a.addChild(b)` followed by `b.addChild(a)`. -/
def cycleHeap : Heap := addChild (addChild twoNodeHeap 0 1) 1 0

/-- A scene holding root `p` (ref 0) with child `c` (ref 1), built through
`Scene.add`. -/
def pcScene : Scene := Scene.add (Scene.add emptyScene "p" none) "c" (some "p")

/-- The same scene after `remove("p")`. -/
def pcSceneRemoved : Scene := Scene.remove pcScene "p"

/-- Two root objects `a` (ref 0) and `b` (ref 1) added through `Scene.add`,
after the direct reparent `scene.get("b").addChild(scene.get("a"))` —
`addChild` is a `SceneObject` method and never touches the scene's
`rootObjects`. -/
def rootReparentScene : Scene :=
  let s := Scene.add (Scene.add emptyScene "a" none) "b" none
  { s with heap := addChild s.heap 1 0 }

/- ═══════════════════════════════════════════════════════════════════════
   Flow runtime scheduler — `flow` in src/core/flow.js.  The closure state
   of one `flow(...)` call: the `running` flag, the `lastTime` baseline of
   the delta clock, the shared context fields the loop updates, the
   currently tracked `animationId`, and the host's set of outstanding
   `requestAnimationFrame` callbacks (each request gets a fresh id and
   fires once).  `plugins` is the registered plugin list (abstract ids);
   `initTrace` records every `plugin.init` invocation `go` dispatches.
   `listeners` models the window listener registrations: `go` re-adds the
   *same* seven handler closures, and `addEventListener` with an identical
   (type, listener) pair is a no-op, so a single flag is the exact state.
   ═══════════════════════════════════════════════════════════════════════ -/

structure FlowState where
  running : Bool
  lastTime : ℚ
  time : ℚ
  delta : ℚ
  frame : ℕ
  animationId : Option ℕ
  pending : List ℕ
  nextReq : ℕ
  plugins : List ℕ
  initTrace : List ℕ
  listeners : Bool
deriving DecidableEq, Repr

/-- State right after `flow(canvas)` returns (lines 71–92, 153): nothing
running, `lastTime = 0`, no outstanding frame callback. -/
def flowNew (plugins : List ℕ) : FlowState :=
  { running := false, lastTime := 0, time := 0, delta := 0, frame := 0,
    animationId := none, pending := [], nextReq := 0,
    plugins := plugins, initTrace := [], listeners := false }

/-- `go()` (flow.js lines 202–221): resize, re-register the window
listeners, call `init(ctx)` on **every** plugin in order, set
`running = true` and request a new animation frame.  There is no
already-running guard and `lastTime` is left untouched. -/
def FlowState.go (s : FlowState) : FlowState :=
  { s with listeners := true,
           initTrace := s.initTrace ++ s.plugins,
           running := true,
           pending := s.pending ++ [s.nextReq],
           animationId := some s.nextReq,
           nextReq := s.nextReq + 1 }

/-- `stop()` (flow.js lines 227–234): clear `running`; cancel the tracked
animation frame request, if any. -/
def FlowState.stop (s : FlowState) : FlowState :=
  { s with running := false,
           pending := match s.animationId with
                      | some i => s.pending.erase i
                      | none => s.pending,
           animationId := none }

/-- The `loop` callback (flow.js lines 154–176) fired by the host at
timestamp `t` (milliseconds) for the outstanding request `req`:
`time = t * 0.001`; `delta = min(time − lastTime, 0.1)`; `lastTime` becomes
`time`; the frame counter increments; plugins render; if still `running`, a
new animation frame is requested.  A request id that is not outstanding
never fires. -/
def FlowState.loop (t : ℚ) (req : ℕ) (s : FlowState) : FlowState :=
  if req ∈ s.pending then
    let time := t * (1 / 1000)
    let s1 := { s with pending := s.pending.erase req,
                       time := time,
                       delta := min (time - s.lastTime) (1 / 10),
                       lastTime := time,
                       frame := s.frame + 1 }
    if s1.running then
      { s1 with pending := s1.pending ++ [s1.nextReq],
                animationId := some s1.nextReq,
                nextReq := s1.nextReq + 1 }
    else s1
  else s

/- ─── concrete scheduler traces for claims C3 and C6 ─── -/

/-- `go()` then ten frames at 100 ms, 200 ms, …, 1000 ms (request `i` fires
frame `i + 1`), leaving `lastTime = 1` s and `frame = 10`. -/
def tenFrames : FlowState :=
  FlowState.loop 1000 9 (FlowState.loop 900 8 (FlowState.loop 800 7 (FlowState.loop 700 6
    (FlowState.loop 600 5 (FlowState.loop 500 4 (FlowState.loop 400 3 (FlowState.loop 300 2
      (FlowState.loop 200 1 (FlowState.loop 100 0 (FlowState.go (flowNew [0])))))))))))

/-- The spec scenario of C3: after the ten frames, `stop()`, a 5-second
pause, `start()` (= `go()`), and the first post-restart frame at 6000 ms. -/
def c3SpecRun : FlowState :=
  FlowState.loop 6000 11 (FlowState.go (FlowState.stop tenFrames))

/-- Variant A of the restart experiment: single frame at 1000 ms, `stop`,
restart, first post-restart frame at 1050 ms. -/
def c3RunA : FlowState :=
  FlowState.loop 1050 2
    (FlowState.go (FlowState.stop (FlowState.loop 1000 0 (FlowState.go (flowNew [0])))))

/-- Variant B: identical to variant A after the restart (same `go`, same
post-restart frame at 1050 ms); only the pre-stop frame timestamp differs
(1040 ms instead of 1000 ms). -/
def c3RunB : FlowState :=
  FlowState.loop 1050 2
    (FlowState.go (FlowState.stop (FlowState.loop 1040 0 (FlowState.go (flowNew [0])))))

/- ═══════════════════════════════════════════════════════════════════════
   Double-buffer simulation engine — `simulation(options)` in
   src/core/flow.js lines 483–678.  GL object allocation is modelled by an
   explicit allocation heap: `createTexture`/`createFramebuffer` hand out
   fresh ids, `texImage2D(..., null)` leaves the new texture's storage at
   its documented reset value 0, and — faithful to the source — no delete
   call is ever issued, so entries are only ever appended.
   ═══════════════════════════════════════════════════════════════════════ -/

structure Tex where
  w : ℕ
  h : ℕ
  content : ℤ
deriving DecidableEq, Repr

structure GLState where
  nextId : ℕ
  textures : List (ℕ × Tex)
  framebuffers : List ℕ
deriving DecidableEq, Repr

/-- `createFBO(gl, w, h)` (flow.js lines 497–511): a fresh texture whose
storage is zero-initialized (`texImage2D` with `null` data), and a fresh
framebuffer with that texture attached.  Returns (new GL heap,
framebuffer id, texture id). -/
def createFBO (gl : GLState) (w h : ℕ) : GLState × ℕ × ℕ :=
  let tex := gl.nextId
  let fb := gl.nextId + 1
  (⟨gl.nextId + 2, gl.textures ++ [(tex, ⟨w, h, 0⟩)], gl.framebuffers ++ [fb]⟩,
   fb, tex)

/-- `Math.floor(d * scale)` for a non-negative dimension. -/
def floorScaled (d : ℕ) (scale : ℚ) : ℕ := (⌊(d : ℚ) * scale⌋).toNat

/-- Closure state of one `simulation(options)` plugin: the resolution
scale, the current target dimensions, the two framebuffer/texture id pairs
in their current (read = A, write = B) role assignment, and the GL heap. -/
structure SimEngine where
  scale : ℚ
  width : ℕ
  height : ℕ
  fboA : ℕ
  fboB : ℕ
  texA : ℕ
  texB : ℕ
  gl : GLState
deriving DecidableEq, Repr

/-- `simulation.init(ctx)` (flow.js lines 593–611): dimensions are
`floor(ctx.width * scale)` × `floor(ctx.height * scale)`; two FBOs are
created; A takes the first pair, B the second. -/
def simInit (scale : ℚ) (gl : GLState) (ctxW ctxH : ℕ) : SimEngine :=
  let width := floorScaled ctxW scale
  let height := floorScaled ctxH scale
  let (gl1, fbA, tA) := createFBO gl width height
  let (gl2, fbB, tB) := createFBO gl1 width height
  { scale := scale, width := width, height := height,
    fboA := fbA, fboB := fbB, texA := tA, texB := tB, gl := gl2 }

/-- The role swap after a simulate iteration (flow.js lines 653–655):
`[fboA, fboB] = [fboB, fboA]; [texA, texB] = [texB, texA]`. -/
def swapRoles (e : SimEngine) : SimEngine :=
  { e with fboA := e.fboB, fboB := e.fboA, texA := e.texB, texB := e.texA }

/-- The buffer-role effect of `simulation.render` (flow.js lines 630–657):
the loop runs `iterations` times and, when a simulate program is
configured, each iteration draws into B and then swaps the roles; without
a simulate program an iteration does nothing. -/
def renderSwaps (hasSim : Bool) : ℕ → SimEngine → SimEngine
  | 0, e => e
  | n + 1, e => renderSwaps hasSim n (if hasSim then swapRoles e else e)

/-- Overwrite the content of texture `id` (the effect of a draw call
targeting the framebuffer that texture is attached to). -/
def writeTex (gl : GLState) (id : ℕ) (v : ℤ) : GLState :=
  { gl with textures := gl.textures.map (fun p => if p.1 = id then (p.1, { p.2 with content := v }) else p) }

/-- One simulate iteration of `simulation.render` with a configured
simulate program: render into the write target B (reading A), then swap
roles, so the freshly written texture becomes the read target A. -/
def simStep (e : SimEngine) (v : ℤ) : SimEngine :=
  swapRoles { e with gl := writeTex e.gl e.texB v }

/-- Read back the content of texture `id`. -/
def readTex (e : SimEngine) (id : ℕ) : Option ℤ :=
  (e.gl.textures.find? (fun p => p.1 = id)).map (fun p => p.2.content)

/-- `simulation.resize(ctx)` (flow.js lines 613–628): compute the new
scaled dimensions; **only if** they differ from the current ones, create
two fresh FBOs and repoint both role pairs at them.  No `deleteTexture` or
`deleteFramebuffer` is ever called: the old targets are merely dropped
from the engine's fields. -/
def simResize (e : SimEngine) (ctxW ctxH : ℕ) : SimEngine :=
  let newWidth := floorScaled ctxW e.scale
  let newHeight := floorScaled ctxH e.scale
  if newWidth ≠ e.width ∨ newHeight ≠ e.height then
    let (gl1, fbA, tA) := createFBO e.gl newWidth newHeight
    let (gl2, fbB, tB) := createFBO gl1 newWidth newHeight
    { e with width := newWidth, height := newHeight,
             fboA := fbA, fboB := fbB, texA := tA, texB := tB, gl := gl2 }
  else e

/- ─── concrete simulation runs for claim C8 ─── -/

/-- Engine at scale 1/2 on a 10 × 10 drawing buffer: 5 × 5 targets. -/
def simE0 : SimEngine := simInit (1 / 2) ⟨0, [], []⟩ 10 10

/-- One simulate iteration writing the marker value 7, so the read target
A now holds 7. -/
def simE1 : SimEngine := simStep simE0 7

/-- A resize event to an 11 × 10 drawing buffer: the scaled dimensions stay
5 × 5 (`floor(11/2) = 5`), so the engine keeps both targets and their
contents. -/
def simE2 : SimEngine := simResize simE1 11 10

/- ═══════════════════════════════════════════════════════════════════════
   Helper lemmas
   ═══════════════════════════════════════════════════════════════════════ -/

/-- Evaluation of one `loop` firing on a state whose only outstanding
request is the one that fires. -/
theorem loop_run (t lt ti de : ℚ) (fr nr req : ℕ) (pl ib : List ℕ) (ls : Bool)
    (an : Option ℕ) :
    FlowState.loop t req
      { running := true, lastTime := lt, time := ti, delta := de, frame := fr,
        animationId := an, pending := [req], nextReq := nr, plugins := pl,
        initTrace := ib, listeners := ls } =
      { running := true, lastTime := t * (1 / 1000), time := t * (1 / 1000),
        delta := min (t * (1 / 1000) - lt) (1 / 10), frame := fr + 1,
        animationId := some nr, pending := [nr], nextReq := nr + 1, plugins := pl,
        initTrace := ib, listeners := ls } := by
  simp [FlowState.loop]

theorem floorScaled_10_half : floorScaled 10 (1 / 2) = 5 := by
  have h : ⌊((10 : ℕ) : ℚ) * (1 / 2)⌋ = 5 := by
    rw [Int.floor_eq_iff] <;> norm_num
  rw [floorScaled, h]
  rfl

theorem floorScaled_11_half : floorScaled 11 (1 / 2) = 5 := by
  have h : ⌊((11 : ℕ) : ℚ) * (1 / 2)⌋ = 5 := by
    rw [Int.floor_eq_iff] <;> norm_num
  rw [floorScaled, h]
  rfl

theorem simE0_val :
    simE0 = { scale := 1 / 2, width := 5, height := 5, fboA := 1, fboB := 3,
              texA := 0, texB := 2,
              gl := ⟨4, [(0, ⟨5, 5, 0⟩), (2, ⟨5, 5, 0⟩)], [1, 3]⟩ } := by
  rw [simE0, simInit, floorScaled_10_half]
  rfl

theorem simE1_val :
    simE1 = { scale := 1 / 2, width := 5, height := 5, fboA := 3, fboB := 1,
              texA := 2, texB := 0,
              gl := ⟨4, [(0, ⟨5, 5, 0⟩), (2, ⟨5, 5, 7⟩)], [1, 3]⟩ } := by
  rw [simE1, simE0_val]
  rfl

theorem simE2_val :
    simE2 = { scale := 1 / 2, width := 5, height := 5, fboA := 3, fboB := 1,
              texA := 2, texB := 0,
              gl := ⟨4, [(0, ⟨5, 5, 0⟩), (2, ⟨5, 5, 7⟩)], [1, 3]⟩ } := by
  rw [simE2, simE1_val, simResize, floorScaled_11_half, floorScaled_10_half]
  norm_num

/-- `swapRoles` exchanges the two framebuffer ids and the two texture ids;
doing so twice restores every field. -/
theorem swapRoles_swapRoles (e : SimEngine) : swapRoles (swapRoles e) = e := rfl

/-- The role assignment after `n` iterations with a configured simulate
program: unchanged for even `n`, swapped for odd `n`. -/
theorem renderSwaps_parity (n : ℕ) (e : SimEngine) :
    renderSwaps true n e = if n % 2 = 0 then e else swapRoles e := by
  induction n generalizing e with
  | zero => rfl
  | succ n ih =>
      rw [renderSwaps, if_pos rfl, ih (swapRoles e)]
      rcases Nat.even_or_odd n with he | ho
      · have h0 : n % 2 = 0 := Nat.even_iff.mp he
        have h1 : (n + 1) % 2 = 1 := by omega
        simp [h0, h1]
      · have h0 : n % 2 = 1 := Nat.odd_iff.mp ho
        have h1 : (n + 1) % 2 = 0 := by omega
        simp [h0, h1, swapRoles_swapRoles]

/-- Looking up a key in the registry after deleting it yields nothing. -/
theorem regLookup_regDelete (m : List (String × ℕ)) (k : String) :
    regLookup (regDelete m k) k = none := by
  induction m with
  | nil => rfl
  | cons p m ih =>
      by_cases h : p.1 = k
      · simpa [regDelete, h] using ih
      · simpa [regDelete, regLookup, List.find?, h] using ih

/-- The tree `renderTree` produces for the C1 scenario. -/
def scenarioRendered : RTree :=
  .mk 0 (updateLocalMatrix 1 0 0 1 0 1 0 1 0 1 1 1)
    (updateLocalMatrix 1 0 0 1 0 1 0 1 0 1 1 1)
    (.cons
      (.mk 1 (updateLocalMatrix 0 2 0 1 0 1 0 1 0 1 1 1)
        (matMulCM (updateLocalMatrix 1 0 0 1 0 1 0 1 0 1 1 1)
          (updateLocalMatrix 0 2 0 1 0 1 0 1 0 1 1 1))
        .nil)
      .nil)

/-- C1: for every node the render pass visits, the world matrix it assigns
equals the parent's world matrix multiplied by the node's local matrix, and
for a root (null parent matrix) it equals the local matrix; concretely, for
root R at local position [1,0,0] with identity rotation and unit scale and
child C at local position [0,2,0], after one render() the translation
component of C's world matrix is [1,2,0]. -/
theorem c1_world_matrix_composition :
    (∀ (p : Option Mat4) (n : SNode) (t : RTree),
        renderTree p n = some t → worldsOk p t = true) ∧
    ((renderTree none scenarioR).bind firstChildWorld).map translationOf = some (1, 2, 0) := by
  constructor
  · exact renderTree_worldsOk
  · norm_num [scenarioR, scenarioC, renderTree, renderForest, updateWorldMatrix, matMulCM,
      updateLocalMatrix, firstChildWorld, translationOf]

/-- C1 witness: the general theorem applied to the concrete R/C scenario. -/
theorem c1_world_matrix_composition_witness :
    renderTree none scenarioR = some scenarioRendered ∧ worldsOk none scenarioRendered = true :=
  ⟨rfl, c1_world_matrix_composition.1 none scenarioR scenarioRendered rfl⟩

/-- C2: the double-buffer role swap after each simulate iteration is an
involution, and after n simulate iterations in a frame (no intervening
resize) the read/write role assignment differs from the pre-frame
assignment exactly when n is odd (parity n mod 2). -/
theorem c2_swap_involution_parity :
    (∀ e : SimEngine, swapRoles (swapRoles e) = e) ∧
    (∀ (n : ℕ) (e : SimEngine), renderSwaps true n e = if n % 2 = 0 then e else swapRoles e) ∧
    (∀ (n : ℕ) (e : SimEngine), e.texA ≠ e.texB → (renderSwaps true n e ≠ e ↔ n % 2 = 1)) := by
  refine ⟨swapRoles_swapRoles, renderSwaps_parity, ?_⟩
  intro n e hne
  rw [renderSwaps_parity]
  rcases Nat.mod_two_eq_zero_or_one n with h | h
  · simp [h]
  · rw [if_neg (by omega), h]
    constructor
    · intro _
      rfl
    · intro _ hsw
      exact hne (show e.texA = e.texB from congrArg SimEngine.texB hsw)

/-- C2 witness: the parity statement applied at n = 1 to the freshly
initialised engine, whose two texture ids differ. -/
theorem c2_swap_involution_parity_witness :
    simE0.texA ≠ simE0.texB ∧ (renderSwaps true 1 simE0 ≠ simE0 ↔ 1 % 2 = 1) :=
  ⟨by decide, c2_swap_involution_parity.2.2 1 simE0 (by decide)⟩

/-- C9: destroying a node with two leaf children produces exactly 3
teardown calls — one per node, none twice, none skipped — and in general
the teardown trace has one entry per node of the subtree. -/
theorem c9_remove_teardown_once :
    destroyTrace scenarioTeardown = [0, 1, 2] ∧
    (destroyTrace scenarioTeardown).length = 3 ∧
    (destroyTrace scenarioTeardown).count 0 = 1 ∧
    (destroyTrace scenarioTeardown).count 1 = 1 ∧
    (destroyTrace scenarioTeardown).count 2 = 1 ∧
    (∀ n : SNode, (destroyTrace n).length = nodeCount n) :=
  ⟨rfl, rfl, by decide, by decide, by decide, destroyTrace_length⟩

/-- C10: Scene.destroy performs its cleanup (stops the frame loop, clears
the registry and root list, removes the listeners) and then unconditionally
throws a TypeError, because it iterates `this.materials`, a property the
Scene constructor never defines; destroy never returns normally. -/
theorem c10_scene_destroy_throws (s : Scene) :
    (Scene.destroy s).2 = Except.error JsError.typeError ∧
    (Scene.destroy s).1.running = false ∧
    (Scene.destroy s).1.animationLoop = none ∧
    (Scene.destroy s).1.registry = [] ∧
    (Scene.destroy s).1.roots = [] ∧
    (Scene.destroy s).1.listeners = false :=
  ⟨rfl, rfl, rfl, rfl, rfl, rfl⟩

/-- C3 counterexample: two runs whose post-restart events are identical
(stop, start, first frame at 1050 ms) but whose pre-stop frame fired at
1000 ms vs 1040 ms get different first post-restart deltas (1/20 vs 1/100
s).  The delta therefore depends on the pre-stop timestamp: it is computed
from the pre-stop baseline, not from the restart instant, and the paused
interval is not excluded — refuting the claim as stated. -/
theorem c3_restart_delta_counterexample :
    c3RunA.delta = 1 / 20 ∧ c3RunB.delta = 1 / 100 ∧ c3RunA.delta ≠ c3RunB.delta := by
  have ha : c3RunA.delta = 1 / 20 := by
    norm_num [c3RunA, flowNew, FlowState.go, FlowState.stop, FlowState.loop, min_def]
  have hb : c3RunB.delta = 1 / 100 := by
    norm_num [c3RunB, flowNew, FlowState.go, FlowState.stop, FlowState.loop, min_def]
  refine ⟨ha, hb, ?_⟩
  rw [ha, hb]
  norm_num

set_option maxHeartbeats 1000000

/-- C3 amended: `go()` does not reset the delta baseline; the first
post-restart frame's delta is min(t/1000 − lastPreStopTime, 0.1), measured
from the pre-stop frame's timestamp and including the paused interval, but
the 0.1 s cap keeps a long pause from appearing as one enormous delta: in
the spec's scenario (10 frames to lastTime = 1 s, stop, 5 s pause, restart,
frame at 6000 ms) the delta is exactly 0.1 s, not 5 s. -/
theorem c3_restart_delta_amended :
    (∀ (s : FlowState) (t : ℚ) (req : ℕ), req ∈ s.pending →
        (FlowState.loop t req s).delta = min (t * (1 / 1000) - s.lastTime) (1 / 10)) ∧
    tenFrames.frame = 10 ∧ tenFrames.lastTime = 1 ∧
    c3SpecRun.frame = 11 ∧ c3SpecRun.delta = 1 / 10 := by
  refine ⟨?_, ?_⟩
  · intro s t req h
    rw [FlowState.loop, if_pos h]
    by_cases hr : s.running <;> simp [hr]
  · norm_num [c3SpecRun, tenFrames, flowNew, FlowState.go, FlowState.stop, FlowState.loop,
      min_def]

/-- C3 witness: the delta formula applied to a concrete loop firing. -/
theorem c3_restart_delta_amended_witness :
    0 ∈ (FlowState.go (flowNew [])).pending ∧
    (FlowState.loop 2000 0 (FlowState.go (flowNew []))).delta =
      min ((2000 : ℚ) * (1 / 1000) - (FlowState.go (flowNew [])).lastTime) (1 / 10) :=
  ⟨by decide, c3_restart_delta_amended.1 (FlowState.go (flowNew [])) 2000 0 (by decide)⟩

/-- C6 counterexample: calling `go()` (aliased by `start()`) twice on a
fresh one-plugin runtime runs the plugin's init hook twice ([0,0] vs [0])
and leaves two outstanding animation-frame requests instead of one, so the
state after start();start() differs from the state after a single start()
— start() while running is not a no-op. -/
theorem c6_start_idempotent_counterexample :
    (FlowState.go (FlowState.go (flowNew [0]))).initTrace = [0, 0] ∧
    (FlowState.go (flowNew [0])).initTrace = [0] ∧
    (FlowState.go (FlowState.go (flowNew [0]))).pending.length = 2 ∧
    (FlowState.go (flowNew [0])).pending.length = 1 ∧
    FlowState.go (FlowState.go (flowNew [0])) ≠ FlowState.go (flowNew [0]) := by
  refine ⟨rfl, rfl, rfl, rfl, ?_⟩
  intro h
  have h2 := congrArg FlowState.initTrace h
  rw [show (FlowState.go (FlowState.go (flowNew [0]))).initTrace = [0, 0] from rfl,
    show (FlowState.go (flowNew [0])).initTrace = [0] from rfl] at h2
  exact absurd h2 (by decide)

/-- C6 amended: calling start() on a scheduler that is already running
re-invokes every registered plugin's init hook (appending the whole plugin
list to the init-call sequence again) and schedules one additional
concurrent frame loop; running stays true, and re-adding the identical
handler references does not duplicate the window listeners. -/
theorem c6_start_while_running_amended (s : FlowState) (h : s.running = true) :
    (FlowState.go s).running = true ∧
    (FlowState.go s).initTrace = s.initTrace ++ s.plugins ∧
    (FlowState.go s).pending.length = s.pending.length + 1 ∧
    (FlowState.go s).listeners = true :=
  ⟨rfl, rfl, by simp [FlowState.go], rfl⟩

/-- C6 witness: the amended statement applied to a running one-plugin
runtime. -/
theorem c6_start_while_running_amended_witness :
    (FlowState.go (flowNew [0])).running = true ∧
    (FlowState.go (FlowState.go (flowNew [0]))).initTrace =
      (FlowState.go (flowNew [0])).initTrace ++ (FlowState.go (flowNew [0])).plugins ∧
    (FlowState.go (FlowState.go (flowNew [0]))).pending.length =
      (FlowState.go (flowNew [0])).pending.length + 1 :=
  ⟨by decide,
   (c6_start_while_running_amended (FlowState.go (flowNew [0])) (by decide)).2.1,
   (c6_start_while_running_amended (FlowState.go (flowNew [0])) (by decide)).2.2.1⟩

/-- C5 counterexample: `a.addChild(b)` followed by `b.addChild(a)` is
accepted silently and produces mutual parent references — node 0 appears
in its own ancestor chain — refuting the claim that such a reparent is
rejected without modifying the graph. -/
theorem c5_cycle_accepted_counterexample :
    (cycleHeap 0).parent = some 1 ∧ (cycleHeap 1).parent = some 0 ∧
    0 ∈ (cycleHeap 1).children ∧ 1 ∈ (cycleHeap 0).children ∧
    selfAncestor cycleHeap 2 0 = true :=
  ⟨rfl, rfl, by decide, by decide, rfl⟩

/-- C5 amended: `addChild` performs no hierarchy check: every reparent is
applied unconditionally (the child's parent pointer is overwritten and the
child is appended to the new parent's list), even when the new parent is
the node itself or one of its descendants, so addChild sequences can make
a node an ancestor of itself; no HierarchyViolation rejection exists. -/
theorem c5_add_child_unchecked :
    (∀ (h : Heap) (p c : ℕ),
        ((addChild h p c) c).parent = some p ∧ c ∈ ((addChild h p c) p).children) ∧
    selfAncestor cycleHeap 2 0 = true := by
  refine ⟨?_, rfl⟩
  intro h p c
  constructor
  · by_cases hpc : c = p
    · subst hpc
      cases hcp : (h c).parent <;> simp [addChild, hcp, hset]
    · cases hcp : (h c).parent <;> simp [addChild, hcp, hset, hpc]
  · cases hcp : (h c).parent <;> simp [addChild, hcp, hset]

/-- C4 counterexample: in a scene with root "p" and child "c", after
remove("p") the id "c" — which belongs to the removed subtree — is still
in the registry, the registered node "c" still holds a parent reference to
the removed node, and the removed node still lists "c" as a child,
refuting the claim that all subtree ids are removed and no dangling
references remain. -/
theorem c4_remove_dangling_counterexample :
    regLookup pcSceneRemoved.registry "p" = none ∧
    regLookup pcSceneRemoved.registry "c" = some 1 ∧
    (pcSceneRemoved.heap 1).parent = some 0 ∧
    (pcSceneRemoved.heap 0).children = [1] ∧
    pcSceneRemoved.roots = [] :=
  ⟨rfl, rfl, rfl, rfl, rfl⟩

/-- C4 amended: remove(id) deletes only the removed node's own id from
the registry (and detaches that node from its parent's children or the
root list); the descendants of the removed node remain registered, and
their parent/child references still point into the removed subtree. -/
theorem c4_remove_amended :
    (∀ (s : Scene) (id : String) (r : ℕ),
        regLookup s.registry id = some r → (s.heap r).id = id →
        regLookup (Scene.remove s id).registry id = none) ∧
    regLookup pcSceneRemoved.registry "c" = some 1 ∧
    (pcSceneRemoved.heap 1).parent = some 0 ∧
    (pcSceneRemoved.heap 0).children = [1] := by
  refine ⟨?_, rfl, rfl, rfl⟩
  intro s id r hl hid
  rw [Scene.remove, hl]
  simp only
  rw [hid]
  exact regLookup_regDelete s.registry id

/-- C4 witness: the general registry-deletion statement applied to the
concrete p/c scene. -/
theorem c4_remove_amended_witness :
    regLookup pcScene.registry "p" = some 0 ∧ (pcScene.heap 0).id = "p" ∧
    regLookup (Scene.remove pcScene "p").registry "p" = none :=
  ⟨rfl, rfl, c4_remove_amended.1 pcScene "p" 0 rfl rfl⟩

/-- The heap after the conditional `removeChild` step at the top of
`addChild` (the `if (child.parent) child.parent.removeChild(child)` line),
named so the later update steps can be reasoned about. -/
def addChildAux (h : Heap) (child : ℕ) : Heap :=
  match (h child).parent with
  | some p => removeChild h p child
  | none => h

theorem hset_eval (h : Heap) (r : ℕ) (n : NodeRec) (x : ℕ) :
    hset h r n x = if x = r then n else h x := rfl

/-- Children lists after `removeChild`: only the self node's list changes,
and only when the child was present. -/
theorem removeChild_children (h : Heap) (q c x : ℕ) :
    ((removeChild h q c) x).children =
      if c ∈ (h q).children ∧ x = q then (h q).children.erase c
      else (h x).children := by
  rw [removeChild]
  by_cases hmem : c ∈ (h q).children
  · rw [if_pos hmem]
    by_cases hxq : x = q <;> by_cases hxc : x = c <;>
      simp_all [hset_eval]
  · rw [if_neg hmem]
    simp [hmem]

/-- Children lists after the whole `addChild`: relative to the intermediate
heap, only the new parent's list changes — the child is appended to it. -/
theorem addChild_children (h : Heap) (p c x : ℕ) :
    ((addChild h p c) x).children =
      if x = p then ((addChildAux h c) p).children ++ [c]
      else ((addChildAux h c) x).children := by
  have heq : addChild h p c =
      hset (hset (addChildAux h c) c { (addChildAux h c) c with parent := some p }) p
        { (hset (addChildAux h c) c { (addChildAux h c) c with parent := some p }) p with
          children :=
            ((hset (addChildAux h c) c
                { (addChildAux h c) c with parent := some p }) p).children ++ [c] } := rfl
  rw [heq]
  by_cases hxp : x = p <;> by_cases hxc : x = c <;> by_cases hpc : p = c <;>
    simp_all [hset_eval]

/-- With the parent back-reference invariant and no duplicated occurrence,
the child is in no children list after `addChild`'s removal step. -/
theorem addChildAux_not_mem (h : Heap) (c : ℕ)
    (H1 : ∀ x, c ∈ (h x).children → (h c).parent = some x)
    (H2 : ∀ x, ((h x).children.count c) ≤ 1) :
    ∀ x, c ∉ ((addChildAux h c) x).children := by
  intro x hx
  rw [addChildAux] at hx
  cases hcp : (h c).parent with
  | none =>
      rw [hcp] at hx
      have h2 := H1 x hx
      rw [hcp] at h2
      cases h2
  | some q =>
      rw [hcp] at hx
      rw [removeChild_children] at hx
      by_cases hcond : c ∈ (h q).children ∧ x = q
      · rw [if_pos hcond] at hx
        have hcount := List.count_erase_self c (h q).children
        have hpos := List.count_pos_iff.mpr hx
        have hone := List.count_pos_iff.mpr hcond.1
        have := H2 q
        omega
      · rw [if_neg hcond] at hx
        have h2 := H1 x hx
        rw [hcp] at h2
        obtain rfl : q = x := by injection h2
        exact hcond ⟨hx, rfl⟩

theorem twoNodeHeap_children (x : ℕ) : (twoNodeHeap x).children = [] := by
  simp only [twoNodeHeap]
  split_ifs <;> rfl

/-- C7 counterexample: after two roots "a" and "b" are added and "a" is
reparented under "b" via addChild, node 0 ("a") is still in the scene's
root list while also being a child of node 1 ("b") — a former root is
simultaneously retained in the root list and in a parent's child list,
refuting the claim. -/
theorem c7_root_retained_counterexample :
    rootReparentScene.roots = [0, 1] ∧ 0 ∈ (rootReparentScene.heap 1).children ∧
    (rootReparentScene.heap 0).parent = some 1 :=
  ⟨rfl, by decide, rfl⟩

/-- C7 amended: under the parent back-reference invariant (each listed
child's parent points at its lister, and no child is listed twice),
addChild removes the node from its single former parent's children and
appends it to the new parent's children, leaving it in exactly one child
list; but addChild never touches the scene's rootObjects, so a node that
was a root stays in the root list while also being the new parent's
child. -/
theorem c7_reparent_amended :
    (∀ (h : Heap) (p c : ℕ),
        (∀ x, c ∈ (h x).children → (h c).parent = some x) →
        (∀ x, ((h x).children.count c) ≤ 1) →
        ((addChild h p c) p).children.count c = 1 ∧
        (∀ x, x ≠ p → c ∉ ((addChild h p c) x).children)) ∧
    (∀ (s : Scene) (p c : ℕ), ({ s with heap := addChild s.heap p c } : Scene).roots = s.roots) ∧
    0 ∈ rootReparentScene.roots ∧ 0 ∈ (rootReparentScene.heap 1).children := by
  refine ⟨?_, fun s p c => rfl, by decide, by decide⟩
  intro h p c H1 H2
  have key := addChildAux_not_mem h c H1 H2
  constructor
  · rw [addChild_children, if_pos rfl, List.count_append,
      List.count_eq_zero_of_not_mem (key p), List.count_singleton_self]
  · intro x hxp
    rw [addChild_children, if_neg hxp]
    exact key x

/-- C7 witness: the exactly-once conclusion applied to a concrete
two-node heap (whose empty child lists satisfy both invariants). -/
theorem c7_reparent_amended_witness :
    ((addChild twoNodeHeap 0 1) 0).children.count 1 = 1 :=
  (c7_reparent_amended.1 twoNodeHeap 0 1
    (fun x hx => absurd hx (by rw [twoNodeHeap_children x]; exact List.not_mem_nil 1))
    (fun x => by rw [twoNodeHeap_children x]; simp)).1

theorem floorScaled_20_half : floorScaled 20 (1 / 2) = 10 := by
  have h : ⌊((20 : ℕ) : ℚ) * (1 / 2)⌋ = 10 := by
    rw [Int.floor_eq_iff] <;> norm_num
  rw [floorScaled, h]
  rfl

/-- Explicit engine state used to witness the resize reallocation. -/
def c8Engine : SimEngine :=
  { scale := 1 / 2, width := 5, height := 5, fboA := 1, fboB := 3, texA := 0, texB := 2,
    gl := ⟨4, [(0, ⟨5, 5, 0⟩), (2, ⟨5, 5, 0⟩)], [1, 3]⟩ }

/-- C8 counterexample: a resize event that changes the drawing buffer
from 10×10 to 11×10 at scale 1/2 leaves the scaled resolution at 5×5, so
simulation.resize keeps both targets untouched and a subsequent read of
the read target returns the previously written marker 7 — stale data, not
the documented reset value 0 — refuting the claim for this resize
event. -/
theorem c8_resize_stale_counterexample :
    readTex simE2 simE2.texA = some 7 ∧ (7 : ℤ) ≠ 0 ∧ simE2 = simE1 := by
  refine ⟨?_, by decide, ?_⟩
  · rw [simE2_val]
    rfl
  · rw [simE2_val, simE1_val]

/-- C8 amended: on a resize event that changes the scaled resolution,
the engine allocates two fresh zero-initialised targets at
floor(displayWidth×factor) × floor(displayHeight×factor) and repoints both
roles at them, so subsequent reads return the reset value 0; the old
targets are dropped from the engine's fields but never explicitly deleted
(they stay in the GL allocation heap).  A resize event that leaves the
scaled resolution unchanged keeps the existing targets and content. -/
theorem c8_resize_amended :
    (∀ (e : SimEngine) (W H : ℕ),
        (∀ q ∈ e.gl.textures, q.1 < e.gl.nextId) →
        (floorScaled W e.scale ≠ e.width ∨ floorScaled H e.scale ≠ e.height) →
        (simResize e W H).width = floorScaled W e.scale ∧
        (simResize e W H).height = floorScaled H e.scale ∧
        readTex (simResize e W H) (simResize e W H).texA = some 0 ∧
        readTex (simResize e W H) (simResize e W H).texB = some 0 ∧
        (∀ q ∈ e.gl.textures, q ∈ (simResize e W H).gl.textures)) ∧
    (∀ (e : SimEngine) (W H : ℕ),
        floorScaled W e.scale = e.width → floorScaled H e.scale = e.height →
        simResize e W H = e) := by
  constructor
  · intro e W H hwf hch
    have hres : simResize e W H =
        { e with width := floorScaled W e.scale, height := floorScaled H e.scale,
                 fboA := e.gl.nextId + 1, fboB := e.gl.nextId + 3,
                 texA := e.gl.nextId, texB := e.gl.nextId + 2,
                 gl := ⟨e.gl.nextId + 4,
                       (e.gl.textures ++
                          [(e.gl.nextId,
                            ⟨floorScaled W e.scale, floorScaled H e.scale, 0⟩)]) ++
                         [(e.gl.nextId + 2,
                           ⟨floorScaled W e.scale, floorScaled H e.scale, 0⟩)],
                       (e.gl.framebuffers ++ [e.gl.nextId + 1]) ++
                         [e.gl.nextId + 3]⟩ } := by
      simp only [simResize, createFBO]
      rw [if_pos hch]
    refine ⟨by rw [hres], by rw [hres], ?_, ?_, ?_⟩
    · rw [hres, readTex]
      simp only [List.find?_append]
      have hnone : e.gl.textures.find? (fun q => q.1 = e.gl.nextId) = none := by
        rw [List.find?_eq_none]
        intro q hq
        have := hwf q hq
        simp only [decide_eq_true_eq]
        omega
      rw [hnone]
      simp
    · rw [hres, readTex]
      simp only [List.find?_append]
      have hnone : e.gl.textures.find? (fun q => q.1 = e.gl.nextId + 2) = none := by
        rw [List.find?_eq_none]
        intro q hq
        have := hwf q hq
        simp only [decide_eq_true_eq]
        omega
      rw [hnone]
      simp
    · intro q hq
      rw [hres]
      exact List.mem_append_left _ (List.mem_append_left _ hq)
  · intro e W H h1 h2
    rw [simResize]
    simp [h1, h2]

/-- C8 witness: the reallocation statement applied to a concrete engine
resized from scaled 5×5 to scaled 10×10. -/
theorem c8_resize_amended_witness :
    (simResize c8Engine 20 20).width = floorScaled 20 (1 / 2) ∧
    readTex (simResize c8Engine 20 20) (simResize c8Engine 20 20).texA = some 0 ∧
    readTex (simResize c8Engine 20 20) (simResize c8Engine 20 20).texB = some 0 :=
  ⟨(c8_resize_amended.1 c8Engine 20 20 (by decide)
      (Or.inl (show floorScaled 20 (1 / 2) ≠ 5 by rw [floorScaled_20_half]; decide))).1,
   (c8_resize_amended.1 c8Engine 20 20 (by decide)
      (Or.inl (show floorScaled 20 (1 / 2) ≠ 5 by rw [floorScaled_20_half]; decide))).2.2.1,
   (c8_resize_amended.1 c8Engine 20 20 (by decide)
      (Or.inl (show floorScaled 20 (1 / 2) ≠ 5 by rw [floorScaled_20_half]; decide))).2.2.2.1⟩
